import Mathlib

/-!
Verification of the pakr-rawata library: raw ATA disk access for Linux
(SG_IO pass-through) and FreeBSD (CAM).  The definitions below are a
shallow embedding of src/lib.rs, src/linux.rs and src/freebsd.rs:
machine integers become Nat with explicit `% 2^w` at the points where the
Rust code casts, byte arrays become lists of Nat, and the fallible
operations become functions from an explicit transport environment to an
outcome type.
-/

namespace RawAta

/-! Constants shared by both backends (linux.rs / freebsd.rs). -/

def SECTOR_BYTES : Nat := 512

def MAX_TRANSFER_SECTORS : Nat := 65536

def MAX_TRANSFER_BYTES : Nat := MAX_TRANSFER_SECTORS * SECTOR_BYTES

/-! Linux SG constants (linux.rs lines 29-44). -/

def SG_ATA_16 : Nat := 0x85

def SG_ATA_LBA48 : Nat := 1

def SG_ATA_PROTO_DMA : Nat := 6 <<< 1

def SG_CDB2_TLEN_NSECT : Nat := 2 <<< 0

def SG_CDB2_TLEN_SECTORS : Nat := 1 <<< 2

def SG_CDB2_TDIR_TO_DEV : Nat := 0 <<< 3

def SG_CDB2_TDIR_FROM_DEV : Nat := 1 <<< 3

def SG_DXFER_TO_DEV : Int := -2

def SG_DXFER_FROM_DEV : Int := -3

/-- Model of the 16-byte CDB that linux.rs raw_read builds (lines 107-135),
listed in index order cdb[0] .. cdb[15].  Rust `as u8` casts become `% 256`;
`count` is `(buffer.len() / SECTOR_BYTES) as u32`. -/
def linuxCdbRead (sector len : Nat) : List Nat :=
  let count := (len / SECTOR_BYTES) % 2 ^ 32
  [ SG_ATA_16,
    SG_ATA_LBA48 ||| SG_ATA_PROTO_DMA,
    SG_CDB2_TLEN_NSECT ||| SG_CDB2_TLEN_SECTORS ||| SG_CDB2_TDIR_FROM_DEV,
    0,
    0,
    (count >>> 8) % 256,
    (count >>> 0) % 256,
    (sector >>> 24) % 256,
    (sector >>> 0) % 256,
    (sector >>> 32) % 256,
    (sector >>> 8) % 256,
    (sector >>> 40) % 256,
    (sector >>> 16) % 256,
    0b11100000,
    0x25,
    0 ]

/-- Model of the 16-byte CDB that linux.rs raw_write builds (lines 178-206):
identical to the read CDB except the transfer-direction bit in cdb[2] and the
command opcode in cdb[14]. -/
def linuxCdbWrite (sector len : Nat) : List Nat :=
  let count := (len / SECTOR_BYTES) % 2 ^ 32
  [ SG_ATA_16,
    SG_ATA_LBA48 ||| SG_ATA_PROTO_DMA,
    SG_CDB2_TLEN_NSECT ||| SG_CDB2_TLEN_SECTORS ||| SG_CDB2_TDIR_TO_DEV,
    0,
    0,
    (count >>> 8) % 256,
    (count >>> 0) % 256,
    (sector >>> 24) % 256,
    (sector >>> 0) % 256,
    (sector >>> 32) % 256,
    (sector >>> 8) % 256,
    (sector >>> 40) % 256,
    (sector >>> 16) % 256,
    0b11100000,
    0x35,
    0 ]

/-- Model of the SgTaskHdr fields relevant to command submission
(linux.rs lines 137-161 and 208-232): the transfer direction, the u32
transfer length `512 * count`, and the CDB. -/
structure SgTaskHdr where
  dxfer_direction : Int
  dxfer_len : Nat
  cdb : List Nat
deriving DecidableEq

def linuxReadTask (sector len : Nat) : SgTaskHdr :=
  { dxfer_direction := SG_DXFER_FROM_DEV
    dxfer_len := (512 * ((len / SECTOR_BYTES) % 2 ^ 32)) % 2 ^ 32
    cdb := linuxCdbRead sector len }

def linuxWriteTask (sector len : Nat) : SgTaskHdr :=
  { dxfer_direction := SG_DXFER_TO_DEV
    dxfer_len := (512 * ((len / SECTOR_BYTES) % 2 ^ 32)) % 2 ^ 32
    cdb := linuxCdbWrite sector len }

/-- Model of the HDIO_DRIVE_CMD Task that linux.rs raw_info builds
(lines 248-254), without the 512-byte response buffer. -/
structure Task where
  command : Nat
  sector : Nat
  feature : Nat
  nsector : Nat
deriving DecidableEq

def linuxIdentifyTask : Task :=
  { command := 0xEC, sector := 0x00, feature := 0x00, nsector := 0x01 }

/-! FreeBSD CAM backend.  The numeric opcode constants come from the
FreeBSD sys/ata.h header that build.rs feeds to bindgen; their values are
the standard ATA command codes the crate documentation also states
(READ_DMA_EXT 0x25, WRITE_DMA_EXT 0x35, IDENTIFY_DEVICE 0xEC). -/

def ATA_READ_DMA48 : Nat := 0x25

def ATA_WRITE_DMA48 : Nat := 0x35

def ATA_ATA_IDENTIFY : Nat := 0xEC

def ATA_DEV_LBA : Nat := 0x40

/-- Named ATA register block of the CAM ataio command (freebsd.rs
lines 120-135).  The CAM_ATAIO flag byte is not modelled: its bit values
live only in the generated bindings and no claim concerns it. -/
structure AtaCmd where
  command : Nat
  sector_count : Nat
  sector_count_exp : Nat
  lba_low : Nat
  lba_mid : Nat
  lba_high : Nat
  lba_low_exp : Nat
  lba_mid_exp : Nat
  lba_high_exp : Nat
  device : Nat
  control : Nat
  features : Nat
  features_exp : Nat
deriving DecidableEq

/-- Direction bit chosen in ccb_h.flags: CAM_DIR_IN for read and identify,
CAM_DIR_OUT for write (freebsd.rs lines 138-139, 189-190, 228-229). -/
inductive CamDir where
  | fromDevice
  | toDevice
deriving DecidableEq

/-- The parts of the CAM ccb ataio structure that raw_read / raw_write /
raw_info populate and that the claims mention. -/
structure AtaioCcb where
  cmd : AtaCmd
  dir : CamDir
  dxfer_len : Nat
deriving DecidableEq

/-- Model of freebsd.rs raw_read command population (lines 117-147).
Rust `as u8` casts become `% 256`; the ccb body was zeroed beforehand. -/
def freebsdReadCcb (sector len : Nat) : AtaioCcb :=
  { cmd :=
    { command := ATA_READ_DMA48
      sector_count := (len / 512) % 256
      sector_count_exp := ((len / 512) >>> 8) % 256
      lba_low := sector % 256
      lba_mid := (sector >>> 8) % 256
      lba_high := (sector >>> 16) % 256
      lba_low_exp := (sector >>> 24) % 256
      lba_mid_exp := (sector >>> 32) % 256
      lba_high_exp := (sector >>> 40) % 256
      device := ATA_DEV_LBA
      control := 0
      features := 0
      features_exp := 0 }
    dir := CamDir.fromDevice
    dxfer_len := len % 2 ^ 32 }

/-- Model of freebsd.rs raw_write command population (lines 168-198). -/
def freebsdWriteCcb (sector len : Nat) : AtaioCcb :=
  { cmd :=
    { command := ATA_WRITE_DMA48
      sector_count := (len / 512) % 256
      sector_count_exp := ((len / 512) >>> 8) % 256
      lba_low := sector % 256
      lba_mid := (sector >>> 8) % 256
      lba_high := (sector >>> 16) % 256
      lba_low_exp := (sector >>> 24) % 256
      lba_mid_exp := (sector >>> 32) % 256
      lba_high_exp := (sector >>> 40) % 256
      device := ATA_DEV_LBA
      control := 0
      features := 0
      features_exp := 0 }
    dir := CamDir.toDevice
    dxfer_len := len % 2 ^ 32 }

/-- Model of freebsd.rs raw_info command population (lines 214-237).
The LBA registers stay at the zero the ccb body was cleared to. -/
def freebsdIdentifyCcb : AtaioCcb :=
  { cmd :=
    { command := ATA_ATA_IDENTIFY
      sector_count := 1
      sector_count_exp := 0
      lba_low := 0
      lba_mid := 0
      lba_high := 0
      lba_low_exp := 0
      lba_mid_exp := 0
      lba_high_exp := 0
      device := ATA_DEV_LBA
      control := 0
      features := 0
      features_exp := 0 }
    dir := CamDir.fromDevice
    dxfer_len := 512 }

/-- Reassemble the six LBA bytes of an ATA-16 CDB: positions 8, 10, 12 hold
the low triad and 7, 9, 11 the high triad. -/
def cdbLba (cdb : List Nat) : Nat :=
  cdb.getD 8 0 + 2 ^ 8 * cdb.getD 10 0 + 2 ^ 16 * cdb.getD 12 0 +
    2 ^ 24 * cdb.getD 7 0 + 2 ^ 32 * cdb.getD 9 0 + 2 ^ 40 * cdb.getD 11 0

/-- Reassemble the six LBA registers of a CAM ATA command. -/
def cmdLba (c : AtaCmd) : Nat :=
  c.lba_low + 2 ^ 8 * c.lba_mid + 2 ^ 16 * c.lba_high +
    2 ^ 24 * c.lba_low_exp + 2 ^ 32 * c.lba_mid_exp + 2 ^ 40 * c.lba_high_exp

/-- The 16-bit sector count encoded in an ATA-16 CDB (bytes 5 high, 6 low). -/
def cdbSectorCount (cdb : List Nat) : Nat :=
  256 * cdb.getD 5 0 + cdb.getD 6 0

/-- The 16-bit sector count encoded in a CAM ATA command. -/
def cmdSectorCount (c : AtaCmd) : Nat :=
  256 * c.sector_count_exp + c.sector_count

/-- The six encoded LBA bytes of an ATA-16 CDB in low-to-high order:
low triad (positions 8, 10, 12) then high triad (positions 7, 9, 11). -/
def cdbLbaBytes (cdb : List Nat) : List Nat :=
  [cdb.getD 8 0, cdb.getD 10 0, cdb.getD 12 0,
   cdb.getD 7 0, cdb.getD 9 0, cdb.getD 11 0]

/-- The six encoded LBA registers of a CAM ATA command in low-to-high order. -/
def cmdLbaBytes (c : AtaCmd) : List Nat :=
  [c.lba_low, c.lba_mid, c.lba_high, c.lba_low_exp, c.lba_mid_exp, c.lba_high_exp]

/-! Identify-device codec (lib.rs).  The IdentifyDeviceData record is a
[u16; 256]; words are modelled as Nat values below 2^16 and the raw 512-byte
memory image of the record as a list of Nat values below 256. -/

/-- Model of IdentifyDeviceData::swap_bytes (lib.rs lines 116-124): for each
16-bit word push ((word >> 8) & 0xFF) and then (word & 0xFF). -/
def swap_bytes : List Nat → List Nat
  | [] => []
  | w :: ws => ((w >>> 8) &&& 0xFF) :: (w &&& 0xFF) :: swap_bytes ws

/-- Unicode replacement character U+FFFD emitted by lossy decoding. -/
def replacementChar : Char := Char.ofNat 0xFFFD

/-- UTF-8 continuation byte test (0x80 ..= 0xBF). -/
def isUtf8Cont (b : Nat) : Bool := 0x80 ≤ b && b ≤ 0xBF

/-- Valid second byte of a three-byte UTF-8 sequence headed by b0. -/
def utf8Second3 (b0 b1 : Nat) : Bool :=
  if b0 = 0xE0 then 0xA0 ≤ b1 && b1 ≤ 0xBF
  else if b0 = 0xED then 0x80 ≤ b1 && b1 ≤ 0x9F
  else isUtf8Cont b1

/-- Valid second byte of a four-byte UTF-8 sequence headed by b0. -/
def utf8Second4 (b0 b1 : Nat) : Bool :=
  if b0 = 0xF0 then 0x90 ≤ b1 && b1 ≤ 0xBF
  else if b0 = 0xF4 then 0x80 ≤ b1 && b1 ≤ 0x8F
  else isUtf8Cont b1

/-- Modelled from Rust std: the byte-level walk of String::from_utf8_lossy,
which decodes UTF-8 and replaces each maximal invalid subsequence with one
U+FFFD (invalid prefixes of length 1, 2 or 3 consume exactly the bytes of the
longest valid prefix of a sequence, an incomplete trailing sequence becomes a
single U+FFFD).  The first argument is fuel making the recursion structural;
each step consumes at least one input byte, so fuel equal to the input length
suffices. -/
def utf8LossyGo : Nat → List Nat → List Char
  | 0, _ => []
  | _ + 1, [] => []
  | fuel + 1, b0 :: rest =>
    if b0 < 0x80 then Char.ofNat b0 :: utf8LossyGo fuel rest
    else if b0 < 0xC2 then replacementChar :: utf8LossyGo fuel rest
    else if b0 ≤ 0xDF then
      match rest with
      | [] => [replacementChar]
      | b1 :: rest1 =>
        if isUtf8Cont b1 then
          Char.ofNat ((b0 - 0xC0) * 0x40 + (b1 - 0x80)) :: utf8LossyGo fuel rest1
        else replacementChar :: utf8LossyGo fuel rest
    else if b0 ≤ 0xEF then
      match rest with
      | [] => [replacementChar]
      | b1 :: rest1 =>
        if utf8Second3 b0 b1 then
          match rest1 with
          | [] => [replacementChar]
          | b2 :: rest2 =>
            if isUtf8Cont b2 then
              Char.ofNat ((b0 - 0xE0) * 0x1000 + (b1 - 0x80) * 0x40 + (b2 - 0x80)) ::
                utf8LossyGo fuel rest2
            else replacementChar :: utf8LossyGo fuel rest1
        else replacementChar :: utf8LossyGo fuel rest
    else if b0 ≤ 0xF4 then
      match rest with
      | [] => [replacementChar]
      | b1 :: rest1 =>
        if utf8Second4 b0 b1 then
          match rest1 with
          | [] => [replacementChar]
          | b2 :: rest2 =>
            if isUtf8Cont b2 then
              match rest2 with
              | [] => [replacementChar]
              | b3 :: rest3 =>
                if isUtf8Cont b3 then
                  Char.ofNat ((b0 - 0xF0) * 0x40000 + (b1 - 0x80) * 0x1000 +
                      (b2 - 0x80) * 0x40 + (b3 - 0x80)) :: utf8LossyGo fuel rest3
                else replacementChar :: utf8LossyGo fuel rest2
            else replacementChar :: utf8LossyGo fuel rest1
        else replacementChar :: utf8LossyGo fuel rest
    else replacementChar :: utf8LossyGo fuel rest

/-- Lossy UTF-8 decoding of a byte list (model of String::from_utf8_lossy). -/
def utf8Lossy (bs : List Nat) : List Char := utf8LossyGo bs.length bs

/-- Modelled from Rust std: char::is_whitespace, the Unicode White_Space
property, which str::trim strips from both ends. -/
def isRustWhitespace (c : Char) : Bool :=
  let n := c.toNat
  (0x09 ≤ n && n ≤ 0x0D) || n == 0x20 || n == 0x85 || n == 0xA0 ||
    n == 0x1680 || (0x2000 ≤ n && n ≤ 0x200A) || n == 0x2028 || n == 0x2029 ||
    n == 0x202F || n == 0x205F || n == 0x3000

/-- Model of str::trim on a character list: strip whitespace from both ends. -/
def trimChars (cs : List Char) : List Char :=
  ((cs.dropWhile isRustWhitespace).reverse.dropWhile isRustWhitespace).reverse

/-- Model of IdentifyDeviceData::swap_string (lib.rs lines 128-131):
un-swap the bytes, decode lossily as UTF-8, trim surrounding whitespace. -/
def swap_string (buffer : List Nat) : List Char :=
  trimChars (utf8Lossy (swap_bytes buffer))

/-- Byte n of a raw byte image, 0 past the end. -/
def byteAt (bs : List Nat) (n : Nat) : Nat := bs.getD n 0

/-- ATA word i of the raw identify byte image: the little-endian byte pair at
offsets 2i and 2i+1.  On a little-endian host this is exactly entry i of the
[u16; 256]; on the wire it is the ATA-defined word. -/
def wordAt (bs : List Nat) (i : Nat) : Nat :=
  byteAt bs (2 * i) + 256 * byteAt bs (2 * i + 1)

/-- The eight raw bytes underlying words 100 ..= 103 (byte offsets 200-207),
the storage the *const u64 cast in get_sector_count points at. -/
def lbaCountBytes (bs : List Nat) : List Nat :=
  [byteAt bs 200, byteAt bs 201, byteAt bs 202, byteAt bs 203,
   byteAt bs 204, byteAt bs 205, byteAt bs 206, byteAt bs 207]

/-- Assemble bytes little-endian: head is the least significant byte. -/
def leAssemble (bs : List Nat) : Nat :=
  bs.foldr (fun b acc => b + 256 * acc) 0

/-- Assemble bytes big-endian: head is the most significant byte. -/
def beAssemble (bs : List Nat) : Nat :=
  bs.foldl (fun acc b => acc * 256 + b) 0

/-- Dereferencing the *const u64 reads the eight bytes in the host's native
byte order. -/
def readNative64 (bigEndianHost : Bool) (bs : List Nat) : Nat :=
  if bigEndianHost then beAssemble (lbaCountBytes bs)
  else leAssemble (lbaCountBytes bs)

/-- Modelled from Rust std: u64::swap_bytes, reversing the eight bytes. -/
def bswap64 (x : Nat) : Nat :=
  beAssemble [x % 256, x / 2 ^ 8 % 256, x / 2 ^ 16 % 256, x / 2 ^ 24 % 256,
    x / 2 ^ 32 % 256, x / 2 ^ 40 % 256, x / 2 ^ 48 % 256, x / 2 ^ 56 % 256]

/-- Modelled from Rust std: u64::from_le, the identity on little-endian hosts
and a byte swap on big-endian hosts. -/
def u64_from_le (bigEndianHost : Bool) (x : Nat) : Nat :=
  if bigEndianHost then bswap64 x else x

/-- Model of IdentifyDeviceData::get_sector_count (lib.rs lines 88-96) over
the raw 512-byte memory image of the record: dereference the u64 at words
100 ..= 103 in host byte order, then normalize with u64::from_le. -/
def get_sector_count (bigEndianHost : Bool) (bs : List Nat) : Nat :=
  u64_from_le bigEndianHost (readNative64 bigEndianHost bs)

/-- Spec-worded byte emission for the C3 refinement comparison: per word emit
the pair (low byte, high byte), as the specification sentence states it. -/
def specLowHighBytes : List Nat → List Nat
  | [] => []
  | w :: ws => (w &&& 0xFF) :: ((w >>> 8) &&& 0xFF) :: specLowHighBytes ws

/-! Error and outcome model of the two transports. -/

/-- The std::io::ErrorKind variants relevant to this crate. -/
inductive ErrorKind where
  | notFound
  | permissionDenied
  | connectionRefused
  | connectionReset
  | connectionAborted
  | notConnected
  | addrInUse
  | addrNotAvailable
  | brokenPipe
  | alreadyExists
  | wouldBlock
  | invalidInput
  | invalidData
  | timedOut
  | writeZero
  | interrupted
  | unsupported
  | unexpectedEof
  | outOfMemory
  | other
  | uncategorized
deriving DecidableEq

/-- Modelled from Rust std: the unix decode_error_kind mapping that
io::Error::last_os_error applies to errno (Linux errno numbers; every
unlisted errno maps to the reserved uncategorized kind, and no errno maps to
ErrorKind::Other or ErrorKind::InvalidData). -/
def osErrorKind (e : Nat) : ErrorKind :=
  match e with
  | 1 => ErrorKind.permissionDenied
  | 2 => ErrorKind.notFound
  | 4 => ErrorKind.interrupted
  | 11 => ErrorKind.wouldBlock
  | 12 => ErrorKind.outOfMemory
  | 13 => ErrorKind.permissionDenied
  | 17 => ErrorKind.alreadyExists
  | 22 => ErrorKind.invalidInput
  | 32 => ErrorKind.brokenPipe
  | 38 => ErrorKind.unsupported
  | 98 => ErrorKind.addrInUse
  | 99 => ErrorKind.addrNotAvailable
  | 103 => ErrorKind.connectionAborted
  | 104 => ErrorKind.connectionReset
  | 107 => ErrorKind.notConnected
  | 110 => ErrorKind.timedOut
  | 111 => ErrorKind.connectionRefused
  | _ => ErrorKind.uncategorized

/-- A std::io::Error: either an OS error built from errno
(io::Error::last_os_error) or a custom error built from a kind and a
message (io::Error::new). -/
inductive IoError where
  | osError (errno : Nat)
  | custom (kind : ErrorKind) (msg : String)
deriving DecidableEq

/-- The ErrorKind an IoError reports to kind inspection. -/
def IoError.kind : IoError → ErrorKind
  | IoError.osError e => osErrorKind e
  | IoError.custom k _ => k

/-- Outcome of one raw_read / raw_write call: normal return, error return,
or a Rust panic (failed assert! or reached unimplemented!). -/
inductive Outcome where
  | ok
  | err (e : IoError)
  | panic
deriving DecidableEq

/-- Ambient result of the SG_IO ioctl on Linux: the ioctl return value, the
thread errno, and the first two sense-buffer bytes written back. -/
structure SgEnv where
  ans : Int
  errno : Nat
  sb0 : Nat
  sb1 : Nat
deriving DecidableEq

/-- Model of linux.rs sg_error_to_io (lines 272-296): assert!(err <= 15)
panics for larger sense bytes (none); otherwise the sense key maps to an
io::Error::new(ErrorKind::Other, name) value.  The match default models the
unimplemented! arm, unreachable under the assert. -/
def sg_error_to_io (err : Nat) : Option IoError :=
  if err ≤ 15 then
    match err with
    | 0 => some (IoError.custom ErrorKind.other "NO_SENSE")
    | 1 => some (IoError.custom ErrorKind.other "RECOVERED_ERROR")
    | 2 => some (IoError.custom ErrorKind.other "NOT_READY")
    | 3 => some (IoError.custom ErrorKind.other "MEDIUM_ERROR")
    | 4 => some (IoError.custom ErrorKind.other "HARDWARE_ERROR")
    | 5 => some (IoError.custom ErrorKind.other "ILLEGAL_REQUEST")
    | 6 => some (IoError.custom ErrorKind.other "UNIT_ATTENTION")
    | 7 => some (IoError.custom ErrorKind.other "DATA_PROTECT")
    | 8 => some (IoError.custom ErrorKind.other "BLANK_CHECK")
    | 9 => some (IoError.custom ErrorKind.other "VENDOR_SPECIFIC")
    | 10 => some (IoError.custom ErrorKind.other "COPY_ABORTED")
    | 11 => some (IoError.custom ErrorKind.other "ABORTED_COMMAND")
    | 12 => some (IoError.custom ErrorKind.other "OTHER")
    | 13 => some (IoError.custom ErrorKind.other "VOLUME_OVERFLOW")
    | 14 => some (IoError.custom ErrorKind.other "MISCOMPARE")
    | 15 => some (IoError.custom ErrorKind.other "COMPLETE")
    | _ => none
  else none

/-- Model of linux.rs raw_read control flow (lines 105-174): assert the two
buffer-length preconditions, issue the SG_IO ioctl, surface a negative return
as the last OS error, surface a non-zero sense byte sb[0] through
sg_error_to_io(sb[1]), otherwise return Ok. -/
def linuxRawRead (sector len : Nat) (env : SgEnv) : Outcome :=
  if len % SECTOR_BYTES ≠ 0 then Outcome.panic
  else if ¬ len ≤ MAX_TRANSFER_BYTES then Outcome.panic
  else if env.ans < 0 then Outcome.err (IoError.osError env.errno)
  else if env.sb0 ≠ 0 then
    match sg_error_to_io env.sb1 with
    | some e => Outcome.err e
    | none => Outcome.panic
  else Outcome.ok

/-- Model of linux.rs raw_write control flow (lines 176-245), identical to
raw_read apart from the CDB it submits. -/
def linuxRawWrite (sector len : Nat) (env : SgEnv) : Outcome :=
  if len % SECTOR_BYTES ≠ 0 then Outcome.panic
  else if ¬ len ≤ MAX_TRANSFER_BYTES then Outcome.panic
  else if env.ans < 0 then Outcome.err (IoError.osError env.errno)
  else if env.sb0 ≠ 0 then
    match sg_error_to_io env.sb1 with
    | some e => Outcome.err e
    | none => Outcome.panic
  else Outcome.ok

/-- Ambient result of cam_send_ccb on FreeBSD: its return value, errno, and
the ataio result status byte. -/
structure CamEnv where
  rc : Int
  errno : Nat
  resStatus : Nat
deriving DecidableEq

/-- Model of freebsd.rs raw_read control flow (lines 109-158).  The two
length checks are debug_assert!-s, compiled in only when dbg is true; a
negative cam_send_ccb return surfaces the last OS error; a set low status
bit surfaces io::Error::new(ErrorKind::InvalidData, "CCB execute failed"). -/
def freebsdRawRead (dbg : Bool) (sector len : Nat) (env : CamEnv) : Outcome :=
  if dbg ∧ ¬ (SECTOR_BYTES ≤ len ∧ len ≤ MAX_TRANSFER_BYTES ∧ len % SECTOR_BYTES = 0) then
    Outcome.panic
  else if env.rc < 0 then Outcome.err (IoError.osError env.errno)
  else if env.resStatus &&& 0x01 ≠ 0 then
    Outcome.err (IoError.custom ErrorKind.invalidData "CCB execute failed")
  else Outcome.ok

/-- Model of freebsd.rs raw_write control flow (lines 160-209), identical to
raw_read apart from the command it populates. -/
def freebsdRawWrite (dbg : Bool) (sector len : Nat) (env : CamEnv) : Outcome :=
  if dbg ∧ ¬ (SECTOR_BYTES ≤ len ∧ len ≤ MAX_TRANSFER_BYTES ∧ len % SECTOR_BYTES = 0) then
    Outcome.panic
  else if env.rc < 0 then Outcome.err (IoError.osError env.errno)
  else if env.resStatus &&& 0x01 ≠ 0 then
    Outcome.err (IoError.custom ErrorKind.invalidData "CCB execute failed")
  else Outcome.ok

/-! Handle close models. -/

/-- Release operations a backend close can invoke on the kernel. -/
inductive ReleaseOp where
  | closeFd (fd : Int)
  | freeCcb (p : Nat)
  | closeDev (p : Nat)
deriving DecidableEq

/-- Linux handle: struct ATA(c_int) holding the raw file descriptor. -/
structure LinuxATA where
  fd : Int
deriving DecidableEq

/-- Model of linux.rs ATA::close (lines 99-103): unconditionally calls
libc::close on the stored descriptor and leaves the handle state unchanged
(the descriptor field is never invalidated). -/
def linuxClose (h : LinuxATA) : List ReleaseOp × LinuxATA :=
  ([ReleaseOp.closeFd h.fd], h)

/-- FreeBSD handle: the cam_device and ccb pointers, with 0 modelling null. -/
structure FreeBSDATA where
  cam : Nat
  ccb : Nat
deriving DecidableEq

/-- Model of freebsd.rs ATA::close (lines 95-107): frees the ccb when the
pointer is non-null, then closes the cam device when that pointer is
non-null; neither pointer is nulled afterwards, so the handle state is
returned unchanged. -/
def freebsdClose (h : FreeBSDATA) : List ReleaseOp × FreeBSDATA :=
  ((if h.ccb ≠ 0 then [ReleaseOp.freeCcb h.ccb] else []) ++
    (if h.cam ≠ 0 then [ReleaseOp.closeDev h.cam] else []), h)

/-- C1: for every sector address a < 2^48, all four command encoders (Linux
read/write CDB, FreeBSD read/write CCB) place bits [0:7], [8:15], [16:23]
of a into the low LBA byte triad and bits [24:31], [32:39], [40:47] into the
high triad, reassembling the six bytes reproduces a exactly, and for
a = 2^48 - 1 all six encoded bytes are 0xFF. -/
theorem lba48_split_roundtrip (a len : Nat) (h : a < 2 ^ 48) :
    cdbLbaBytes (linuxCdbRead a len) =
      [a % 2 ^ 8, a / 2 ^ 8 % 2 ^ 8, a / 2 ^ 16 % 2 ^ 8,
       a / 2 ^ 24 % 2 ^ 8, a / 2 ^ 32 % 2 ^ 8, a / 2 ^ 40 % 2 ^ 8] ∧
    cdbLbaBytes (linuxCdbWrite a len) = cdbLbaBytes (linuxCdbRead a len) ∧
    cmdLbaBytes (freebsdReadCcb a len).cmd = cdbLbaBytes (linuxCdbRead a len) ∧
    cmdLbaBytes (freebsdWriteCcb a len).cmd = cdbLbaBytes (linuxCdbRead a len) ∧
    cdbLba (linuxCdbRead a len) = a ∧
    cdbLba (linuxCdbWrite a len) = a ∧
    cmdLba (freebsdReadCcb a len).cmd = a ∧
    cmdLba (freebsdWriteCcb a len).cmd = a ∧
    cdbLbaBytes (linuxCdbRead (2 ^ 48 - 1) len) = [255, 255, 255, 255, 255, 255] ∧
    cdbLbaBytes (linuxCdbWrite (2 ^ 48 - 1) len) = [255, 255, 255, 255, 255, 255] ∧
    cmdLbaBytes (freebsdReadCcb (2 ^ 48 - 1) len).cmd = [255, 255, 255, 255, 255, 255] ∧
    cmdLbaBytes (freebsdWriteCcb (2 ^ 48 - 1) len).cmd = [255, 255, 255, 255, 255, 255] := by
  refine ⟨?_, ?_, ?_, ?_, ?_, ?_, ?_, ?_, ?_, ?_, ?_, ?_⟩ <;>
    simp [linuxCdbRead, linuxCdbWrite, freebsdReadCcb, freebsdWriteCcb,
      cdbLba, cmdLba, cdbLbaBytes, cmdLbaBytes, Nat.shiftRight_eq_div_pow] <;>
    omega

/-- Witness for C1 at the concrete address 3 with a 512-byte buffer. -/
theorem lba48_split_roundtrip_witness :
    (3 : Nat) < 2 ^ 48 ∧
      (cdbLba (linuxCdbRead 3 512) = 3 ∧ cmdLba (freebsdReadCcb 3 512).cmd = 3) :=
  ⟨by decide,
    ⟨(lba48_split_roundtrip 3 512 (by decide)).2.2.2.2.1,
     (lba48_split_roundtrip 3 512 (by decide)).2.2.2.2.2.2.1⟩⟩

/-- C2: for every buffer length that is a positive multiple of 512 of at most
65536 sectors, both encoders set the 16-bit sector-count field to
(len / 512) mod 2^16; at exactly 65536 * 512 bytes every encoded count byte
is 0 and the field encodes 0, not 65536. -/
theorem sector_count_field (sector len : Nat) (_h1 : len % 512 = 0)
    (h2 : 1 ≤ len / 512) (h3 : len / 512 ≤ 65536) :
    cdbSectorCount (linuxCdbRead sector len) = len / 512 % 2 ^ 16 ∧
    cdbSectorCount (linuxCdbWrite sector len) = len / 512 % 2 ^ 16 ∧
    cmdSectorCount (freebsdReadCcb sector len).cmd = len / 512 % 2 ^ 16 ∧
    cmdSectorCount (freebsdWriteCcb sector len).cmd = len / 512 % 2 ^ 16 ∧
    (linuxCdbRead sector (65536 * 512)).getD 5 0 = 0 ∧
    (linuxCdbRead sector (65536 * 512)).getD 6 0 = 0 ∧
    (freebsdReadCcb sector (65536 * 512)).cmd.sector_count = 0 ∧
    (freebsdReadCcb sector (65536 * 512)).cmd.sector_count_exp = 0 ∧
    cdbSectorCount (linuxCdbRead sector (65536 * 512)) = 0 ∧
    cmdSectorCount (freebsdReadCcb sector (65536 * 512)).cmd = 0 := by
  refine ⟨?_, ?_, ?_, ?_, ?_, ?_, ?_, ?_, ?_, ?_⟩ <;>
    simp [linuxCdbRead, linuxCdbWrite, freebsdReadCcb, freebsdWriteCcb,
      cdbSectorCount, cmdSectorCount, SECTOR_BYTES,
      Nat.shiftRight_eq_div_pow] <;>
    omega

/-- Witness for C2 at the concrete length 512 (one sector). -/
theorem sector_count_field_witness :
    ((512 : Nat) % 512 = 0 ∧ 1 ≤ 512 / 512 ∧ 512 / 512 ≤ 65536) ∧
      cdbSectorCount (linuxCdbRead 0 512) = 512 / 512 % 2 ^ 16 :=
  ⟨by decide,
    (sector_count_field 0 512 (by decide) (by decide) (by decide)).1⟩

/-- C8: the command opcode byte is 0x25 for read, 0x35 for write and 0xEC for
identify on both backends, and the transfer direction is from-device for read
and identify and to-device for write (Linux: dxfer_direction and the TDIR bit
of cdb[2]; FreeBSD: the CAM direction flag; the Linux identify path submits
through HDIO_DRIVE_CMD, whose transfer is from-device by its read semantics). -/
theorem opcode_and_direction (sector len : Nat) :
    (linuxCdbRead sector len).getD 14 0 = 0x25 ∧
    (linuxCdbWrite sector len).getD 14 0 = 0x35 ∧
    linuxIdentifyTask.command = 0xEC ∧
    (linuxReadTask sector len).dxfer_direction = SG_DXFER_FROM_DEV ∧
    (linuxWriteTask sector len).dxfer_direction = SG_DXFER_TO_DEV ∧
    (linuxCdbRead sector len).getD 2 0 &&& 8 = SG_CDB2_TDIR_FROM_DEV ∧
    (linuxCdbWrite sector len).getD 2 0 &&& 8 = SG_CDB2_TDIR_TO_DEV ∧
    (freebsdReadCcb sector len).cmd.command = 0x25 ∧
    (freebsdWriteCcb sector len).cmd.command = 0x35 ∧
    freebsdIdentifyCcb.cmd.command = 0xEC ∧
    (freebsdReadCcb sector len).dir = CamDir.fromDevice ∧
    (freebsdWriteCcb sector len).dir = CamDir.toDevice ∧
    freebsdIdentifyCcb.dir = CamDir.fromDevice := by
  refine ⟨rfl, rfl, rfl, rfl, rfl, ?_, ?_, rfl, rfl, rfl, rfl, rfl, rfl⟩
  · simp [linuxCdbRead, SG_CDB2_TDIR_FROM_DEV]
    decide
  · simp [linuxCdbWrite, SG_CDB2_TDIR_TO_DEV]
    decide

/-- C3 counterexample: on the single word 0x4162 the decoder emits the pair
(high byte, low byte) = [0x41, 0x62], not the claimed (low byte, high byte)
order, which would give [0x62, 0x41]. -/
theorem swap_bytes_not_low_then_high :
    swap_bytes [0x4162] = [0x41, 0x62] ∧
      specLowHighBytes [0x4162] = [0x62, 0x41] ∧
      swap_bytes [0x4162] ≠ specLowHighBytes [0x4162] := by decide

/-- C3 amended: for each 16-bit word the decoder emits the pair
(high byte, low byte) — swapping the two bytes of every 16-bit unit — and the
string decoder then lossily decodes that byte sequence as UTF-8 and trims
surrounding whitespace. -/
theorem swap_bytes_high_then_low (ws : List Nat) (h : ∀ w ∈ ws, w < 2 ^ 16) :
    swap_bytes ws = ws.flatMap (fun w => [w / 256, w % 256]) ∧
    swap_string ws = trimChars (utf8Lossy (swap_bytes ws)) := by
  refine ⟨?_, rfl⟩
  induction ws with
  | nil => rfl
  | cons w tail ih =>
    have hw : w < 2 ^ 16 := h w (List.mem_cons_self w tail)
    have hrest : ∀ x ∈ tail, x < 2 ^ 16 := fun x hx => h x (List.mem_cons_of_mem w hx)
    have e1 : (w >>> 8) &&& 0xFF = w / 256 := by
      have h2 := Nat.and_pow_two_sub_one_eq_mod (w >>> 8) 8
      norm_num at h2
      rw [h2, Nat.shiftRight_eq_div_pow]
      norm_num
      omega
    have e2 : w &&& 0xFF = w % 256 := by
      have h2 := Nat.and_pow_two_sub_one_eq_mod w 8
      norm_num at h2
      exact h2
    simp [swap_bytes, List.flatMap_cons, e1, e2, ih hrest]

/-- Witness for the amended C3 on the concrete words [0x2020, 0x4162]. -/
theorem swap_bytes_high_then_low_witness :
    (∀ w ∈ ([0x2020, 0x4162] : List Nat), w < 2 ^ 16) ∧
      swap_bytes [0x2020, 0x4162] =
        ([0x2020, 0x4162] : List Nat).flatMap (fun w => [w / 256, w % 256]) :=
  ⟨by decide, (swap_bytes_high_then_low [0x2020, 0x4162] (by decide)).1⟩

/-- A big-endian read of eight bytes followed by the from_le byte swap yields
the little-endian value of the same bytes. -/
theorem bswap64_beAssemble (b0 b1 b2 b3 b4 b5 b6 b7 : Nat)
    (h0 : b0 < 256) (h1 : b1 < 256) (h2 : b2 < 256) (h3 : b3 < 256)
    (h4 : b4 < 256) (h5 : b5 < 256) (h6 : b6 < 256) (h7 : b7 < 256) :
    bswap64 (beAssemble [b0, b1, b2, b3, b4, b5, b6, b7]) =
      leAssemble [b0, b1, b2, b3, b4, b5, b6, b7] := by
  simp only [bswap64, beAssemble, leAssemble, List.foldl_cons, List.foldl_nil,
    List.foldr_cons, List.foldr_nil]
  generalize hX : (((((((((0 : Nat) * 256 + b0) * 256 + b1) * 256 + b2) * 256 + b3) * 256 + b4)
      * 256 + b5) * 256 + b6) * 256 + b7) = x
  have e0 : x % 256 = b7 := by omega
  have e1 : x / 2 ^ 8 % 256 = b6 := by omega
  have e2 : x / 2 ^ 16 % 256 = b5 := by omega
  have e3 : x / 2 ^ 24 % 256 = b4 := by omega
  have e4 : x / 2 ^ 32 % 256 = b3 := by omega
  have e5 : x / 2 ^ 40 % 256 = b2 := by omega
  have e6 : x / 2 ^ 48 % 256 = b1 := by omega
  have e7 : x / 2 ^ 56 % 256 = b0 := by omega
  rw [e0, e1, e2, e3, e4, e5, e6, e7]
  ring

/-- C7: get_sector_count returns the 64-bit value assembled from words
100 ..= 103 of the identify record in little-endian word order (word 100
least significant), and the u64::from_le normalization makes the result
identical on a big-endian host and a little-endian host. -/
theorem get_sector_count_le_words (be : Bool) (bs : List Nat)
    (h : ∀ b ∈ bs, b < 256) :
    get_sector_count be bs =
      wordAt bs 100 + 2 ^ 16 * wordAt bs 101 + 2 ^ 32 * wordAt bs 102 +
        2 ^ 48 * wordAt bs 103 ∧
    get_sector_count be bs = get_sector_count false bs := by
  have hbd : ∀ n, byteAt bs n < 256 := by
    intro n
    rw [byteAt, List.getD_eq_getElem?_getD]
    cases hg : bs[n]? with
    | none => simp
    | some b =>
      have hm : b ∈ bs := List.getElem?_mem hg
      simp [hg]
      exact h b hm
  have key : ∀ bhost : Bool, get_sector_count bhost bs =
      wordAt bs 100 + 2 ^ 16 * wordAt bs 101 + 2 ^ 32 * wordAt bs 102 +
        2 ^ 48 * wordAt bs 103 := by
    intro bhost
    have h0 := hbd 200
    have h1 := hbd 201
    have h2 := hbd 202
    have h3 := hbd 203
    have h4 := hbd 204
    have h5 := hbd 205
    have h6 := hbd 206
    have h7 := hbd 207
    cases bhost with
    | false =>
      simp [get_sector_count, u64_from_le, readNative64, leAssemble,
        lbaCountBytes, wordAt]
      ring
    | true =>
      have hrw := bswap64_beAssemble (byteAt bs 200) (byteAt bs 201)
        (byteAt bs 202) (byteAt bs 203) (byteAt bs 204) (byteAt bs 205)
        (byteAt bs 206) (byteAt bs 207) h0 h1 h2 h3 h4 h5 h6 h7
      show bswap64 (beAssemble (lbaCountBytes bs)) = _
      simp only [lbaCountBytes]
      rw [hrw]
      simp [leAssemble, wordAt]
      ring
  exact ⟨key be, (key be).trans (key false).symm⟩

/-- Witness for C7 on an all-zero 512-byte record image. -/
theorem get_sector_count_le_words_witness :
    (∀ b ∈ List.replicate 512 0, b < 256) ∧
      get_sector_count false (List.replicate 512 0) =
        wordAt (List.replicate 512 0) 100 +
          2 ^ 16 * wordAt (List.replicate 512 0) 101 +
          2 ^ 32 * wordAt (List.replicate 512 0) 102 +
          2 ^ 48 * wordAt (List.replicate 512 0) 103 :=
  ⟨by
    intro b hb
    rw [List.eq_of_mem_replicate hb]
    omega,
   (get_sector_count_le_words false (List.replicate 512 0)
      (by
        intro b hb
        rw [List.eq_of_mem_replicate hb]
        omega)).1⟩

/-- C9: the 20-word buffer encoding "Abcdef" under the word-swap convention
(byte pairs reversed per word, space-padded) decodes to exactly "Abcdef"
with the padding trimmed. -/
theorem swap_string_abcdef :
    swap_string ([0x4162, 0x6364, 0x6566] ++ List.replicate 17 0x2020) =
      ['A', 'b', 'c', 'd', 'e', 'f'] := by decide

/-- C4 counterexample: a zero-byte buffer passes both Linux precondition
asserts, so the SG_IO transport call is issued; with a succeeding transport
the zero-byte read returns Ok, and with a failing transport it returns that
transport error, so the outcome is decided by the transport, not by
validation. -/
theorem linux_zero_len_reaches_transport :
    linuxRawRead 5 0 ⟨0, 0, 0, 0⟩ = Outcome.ok ∧
      linuxRawRead 5 0 ⟨-1, 5, 0, 0⟩ = Outcome.err (IoError.osError 5) := by
  decide

/-- C4 amended: a buffer whose length is not a multiple of 512 or exceeds
65536 * 512 bytes makes the Linux read and write panic on the precondition
asserts before any transport call (the outcome ignores the transport
environment), and with debug assertions compiled in the FreeBSD read and
write also reject such buffers, as well as empty ones, before the transport
call; a 0-byte buffer passes the Linux checks. -/
theorem validation_rejects_misaligned_oversized (sector len : Nat)
    (env : SgEnv) (cenv : CamEnv)
    (hbad : len % 512 ≠ 0 ∨ MAX_TRANSFER_BYTES < len) :
    linuxRawRead sector len env = Outcome.panic ∧
    linuxRawWrite sector len env = Outcome.panic ∧
    freebsdRawRead true sector len cenv = Outcome.panic ∧
    freebsdRawWrite true sector len cenv = Outcome.panic ∧
    freebsdRawRead true sector 0 cenv = Outcome.panic ∧
    freebsdRawWrite true sector 0 cenv = Outcome.panic := by
  have hb : len % 512 ≠ 0 ∨ 65536 * 512 < len := by
    simpa [MAX_TRANSFER_BYTES, MAX_TRANSFER_SECTORS, SECTOR_BYTES] using hbad
  refine ⟨?_, ?_, ?_, ?_, ?_, ?_⟩
  · unfold linuxRawRead
    split
    · rfl
    next hc1 =>
      split
      · rfl
      next hc2 =>
        exfalso
        simp [SECTOR_BYTES, MAX_TRANSFER_BYTES, MAX_TRANSFER_SECTORS] at hc1 hc2
        omega
  · unfold linuxRawWrite
    split
    · rfl
    next hc1 =>
      split
      · rfl
      next hc2 =>
        exfalso
        simp [SECTOR_BYTES, MAX_TRANSFER_BYTES, MAX_TRANSFER_SECTORS] at hc1 hc2
        omega
  · unfold freebsdRawRead
    split
    · rfl
    next hc =>
      exfalso
      simp [SECTOR_BYTES, MAX_TRANSFER_BYTES, MAX_TRANSFER_SECTORS] at hc
      omega
  · unfold freebsdRawWrite
    split
    · rfl
    next hc =>
      exfalso
      simp [SECTOR_BYTES, MAX_TRANSFER_BYTES, MAX_TRANSFER_SECTORS] at hc
      omega
  · unfold freebsdRawRead
    split
    · rfl
    next hc =>
      exfalso
      simp [SECTOR_BYTES] at hc
  · unfold freebsdRawWrite
    split
    · rfl
    next hc =>
      exfalso
      simp [SECTOR_BYTES] at hc

/-- Witness for the amended C4 at the misaligned concrete length 513. -/
theorem validation_rejects_witness :
    ((513 : Nat) % 512 ≠ 0 ∨ MAX_TRANSFER_BYTES < 513) ∧
      linuxRawRead 0 513 ⟨0, 0, 0, 0⟩ = Outcome.panic :=
  ⟨Or.inl (by decide),
    (validation_rejects_misaligned_oversized 0 513 ⟨0, 0, 0, 0⟩ ⟨0, 0, 0⟩
      (Or.inl (by decide))).1⟩

/-- C5: evaluation of the close models at concrete handles.  A second close
of the same Linux handle calls libc::close on the same descriptor again, and
a second close of the same FreeBSD handle calls cam_freeccb and
cam_close_spec_device on the same pointers again, because neither close
invalidates the stored handle state. -/
theorem close_reinvokes_release :
    (linuxClose (linuxClose ⟨3⟩).2).1 = [ReleaseOp.closeFd 3] ∧
      (freebsdClose (freebsdClose ⟨1, 2⟩).2).1 =
        [ReleaseOp.freeCcb 2, ReleaseOp.closeDev 1] := by
  decide

/-- Every IoError sg_error_to_io produces carries ErrorKind::Other. -/
theorem sg_error_to_io_kind (n : Nat) (e : IoError)
    (h : sg_error_to_io n = some e) : IoError.kind e = ErrorKind.other := by
  unfold sg_error_to_io at h
  split at h
  · split at h <;> first
      | (injection h with h2; subst h2; rfl)
      | simp at h
  · simp at h

/-- No errno maps to ErrorKind::Other or ErrorKind::InvalidData, the two
kinds the backends reserve for device-level command failures. -/
theorem osErrorKind_not_device (e : Nat) :
    osErrorKind e ≠ ErrorKind.other ∧ osErrorKind e ≠ ErrorKind.invalidData := by
  unfold osErrorKind
  split <;> simp

/-- C6: a device fault on an otherwise successful transport call surfaces as
a device-level error whose kind (Other on Linux, InvalidData on FreeBSD) no
transport-level error can carry, so the two classes are distinguished by
error-kind inspection alone. -/
theorem device_error_kind_distinct (sector len : Nat) (env : SgEnv)
    (cenv : CamEnv) (dbg : Bool) :
    (∀ e, 0 ≤ env.ans → linuxRawRead sector len env = Outcome.err e →
      IoError.kind e = ErrorKind.other) ∧
    (∀ e, env.ans < 0 → linuxRawRead sector len env = Outcome.err e →
      IoError.kind e ≠ ErrorKind.other) ∧
    (∀ e, 0 ≤ cenv.rc → freebsdRawWrite dbg sector len cenv = Outcome.err e →
      IoError.kind e = ErrorKind.invalidData) ∧
    (∀ e, cenv.rc < 0 → freebsdRawWrite dbg sector len cenv = Outcome.err e →
      IoError.kind e ≠ ErrorKind.invalidData) := by
  refine ⟨?_, ?_, ?_, ?_⟩
  · intro e hans heq
    unfold linuxRawRead at heq
    split at heq
    · simp at heq
    · split at heq
      · simp at heq
      · split at heq
        next hc => omega
        next =>
          split at heq
          · split at heq
            next he =>
              injection heq with h2
              subst h2
              exact sg_error_to_io_kind _ _ he
            next => simp at heq
          · simp at heq
  · intro e hlt heq
    unfold linuxRawRead at heq
    split at heq
    · simp at heq
    · split at heq
      · simp at heq
      · injection heq with h2
        subst h2
        exact (osErrorKind_not_device env.errno).1
  · intro e hrc heq
    unfold freebsdRawWrite at heq
    split at heq
    · simp at heq
    · split at heq
      next hc => omega
      next =>
        split at heq
        · injection heq with h2
          subst h2
          rfl
        · simp at heq
  · intro e hlt heq
    unfold freebsdRawWrite at heq
    split at heq
    · simp at heq
    · injection heq with h2
      subst h2
      exact (osErrorKind_not_device cenv.errno).2

/-- Witness for C6: a successful transport with sense key 3 yields the
device-level MEDIUM_ERROR with kind Other. -/
theorem device_error_kind_distinct_witness :
    ((0 : Int) ≤ 0 ∧
        linuxRawRead 0 512 ⟨0, 0, 1, 3⟩ =
          Outcome.err (IoError.custom ErrorKind.other "MEDIUM_ERROR")) ∧
      IoError.kind (IoError.custom ErrorKind.other "MEDIUM_ERROR") =
        ErrorKind.other :=
  ⟨⟨le_refl 0, by decide⟩,
    (device_error_kind_distinct 0 512 ⟨0, 0, 1, 3⟩ ⟨0, 0, 0⟩ false).1
      (IoError.custom ErrorKind.other "MEDIUM_ERROR") (le_refl 0) (by decide)⟩

/-- The sense-key conversion succeeds exactly on sense bytes at most 15. -/
theorem sg_error_to_io_isSome (n : Nat) :
    (sg_error_to_io n).isSome ↔ n ≤ 15 := by
  unfold sg_error_to_io
  split
  next hle => split <;> simp_all <;> omega
  next hgt =>
    simp
    omega

/-- C10: sg_error_to_io is total exactly on sense bytes 0 ..= 15; on a
successful transport call with a non-zero sense byte sb[0], raw_read and
raw_write panic on the assert when sb[1] > 15 instead of returning an error,
and return the device-level ErrorKind::Other error when sb[1] <= 15. -/
theorem sg_error_total_iff (env : SgEnv) (sector len : Nat)
    (hval : len % SECTOR_BYTES = 0 ∧ len ≤ MAX_TRANSFER_BYTES)
    (hans : 0 ≤ env.ans) (hsb : env.sb0 ≠ 0) :
    ((sg_error_to_io env.sb1).isSome ↔ env.sb1 ≤ 15) ∧
    (15 < env.sb1 → linuxRawRead sector len env = Outcome.panic ∧
      linuxRawWrite sector len env = Outcome.panic) ∧
    (env.sb1 ≤ 15 → ∃ e, linuxRawRead sector len env = Outcome.err e ∧
      IoError.kind e = ErrorKind.other) := by
  have hans' : ¬ env.ans < 0 := by omega
  refine ⟨sg_error_to_io_isSome env.sb1, ?_, ?_⟩
  · intro hgt
    have hnone : sg_error_to_io env.sb1 = none := by
      unfold sg_error_to_io
      rw [if_neg (by omega)]
    constructor <;>
      simp [linuxRawRead, linuxRawWrite, hval.1, hval.2, hans', hsb, hnone]
  · intro hle
    cases hs : sg_error_to_io env.sb1 with
    | none =>
      have hi := (sg_error_to_io_isSome env.sb1).2 hle
      rw [hs] at hi
      simp at hi
    | some e =>
      refine ⟨e, ?_, sg_error_to_io_kind _ _ hs⟩
      simp [linuxRawRead, hval.1, hval.2, hans', hsb, hs]

/-- Witness for C10: a successful transport with sb[0] = 1 and sb[1] = 16
makes raw_read and raw_write panic. -/
theorem sg_error_total_iff_witness :
    (((512 : Nat) % SECTOR_BYTES = 0 ∧ 512 ≤ MAX_TRANSFER_BYTES) ∧
        (0 : Int) ≤ 0 ∧ (1 : Nat) ≠ 0 ∧ (15 : Nat) < 16) ∧
      linuxRawRead 0 512 ⟨0, 0, 1, 16⟩ = Outcome.panic :=
  ⟨⟨by decide, le_refl 0, by decide, by decide⟩,
    ((sg_error_total_iff ⟨0, 0, 1, 16⟩ 0 512 (by decide) (le_refl 0)
      (by decide)).2.1 (by decide)).1⟩

end RawAta
